import Mathlib

/-!
Shallow embedding of the browserstack-connector session admission and
confirmation subsystem.

Sources embedded here:
- `src/hub.js` : the correlation server ("Hub"), an express app with a single
  route `GET /:id` that emits an "open" event on its event emitter and
  redirects to the `url` query parameter.
- the connector (`src/index.js`, hub-based version): worker polling
  (`_getWorker`, `getSessionUrl`), admission control (`_getWorkers`,
  `_getMaxAvailableMachines`, `_getFreeMachineCount`, `waitForFreeMachines`),
  the per-attempt open state machine (`_startBrowser`), the retry wrapper
  (`startBrowser`) and `stopBrowser`.

Remote API calls are modelled as oracles: each call site receives the result
the remote end would deliver (an `Except` for callbacks with an `err`
parameter). JS `undefined`/`null` is `Option.none`; a rejected promise is
`Except.error`.
-/

/-- A remote worker record as returned by the BrowserStack client
(`getWorker` / `getWorkers` callbacks). Field names follow the API. -/
structure Worker where
  id : String
  status : String
  browser_url : String
deriving DecidableEq

/-- The payload of the `getApiStatus` callback (`_getMaxAvailableMachines`
reads `status.sessions_limit`). -/
structure ApiStatus where
  sessions_limit : Int
deriving DecidableEq

/-- The payload of the `terminateWorker` callback (`stopBrowser` resolves
`data.time`). -/
structure TerminateData where
  time : Int
deriving DecidableEq

/-- hub.js `_setupRoutes`: the route handler runs `this.emit` with the event
name "open" (`this.emit("open", urlIdentifier)`). -/
def hubEmitEventName : String := "open"

/-- index.js `_startBrowser`: the notification listener is added and removed
under the event name "browser-opened"
(`this.hub.addListener("browser-opened", hubHandler)`). -/
def openedListenEventName : String := "browser-opened"

/-- An inbound HTTP request to the Hub, already parsed: method, path split
into segments, and the decoded `url` query parameter (none when absent). -/
structure HubRequest where
  method : String
  pathSegments : List String
  urlQuery : Option String
deriving DecidableEq

/-- The Hub's response: an express `res.redirect(url)` (default status 302),
or no matching route (express falls through to its 404 handler). -/
inductive HubResponse where
  | redirect (status : Nat) (location : Option String)
  | notFound
deriving DecidableEq

/-- hub.js `_setupRoutes`: the only registered route is `app.get("/:id")`,
which matches a GET request whose path has exactly one segment. The handler
reads `req.query.url`, emits the "open" event carrying the path segment, and
redirects to the url. The second component is the list of emitted events
(event name, payload id). -/
def handleHubRequest (req : HubRequest) : HubResponse × List (String × String) :=
  if req.method = "GET" then
    match req.pathSegments with
    | [id] => (.redirect 302 req.urlQuery, [(hubEmitEventName, id)])
    | _ => (.notFound, [])
  else (.notFound, [])

/-- index.js `_getWorker`: `maxAttempts = 30`; the loop condition
`attempts++ <= maxAttempts` runs the body for attempts 0..30. -/
def GET_WORKER_MAX_ATTEMPTS : Nat := 30

/-- index.js `_getWorker` loop body, with `poll i` the result of the i-th
`this.client.getWorker(id, ...)` callback (which resolves `worker`, possibly
undefined, ignoring `err`). `remaining` counts the iterations the while
condition still allows; each failed iteration waits `requestTimeout` (10 s)
before the next poll. Falling off the loop returns undefined (`none`). -/
def getWorkerLoop (poll : Nat → Option Worker) : Nat → Nat → Option Worker
  | _, 0 => none
  | attempts, remaining + 1 =>
    match poll attempts with
    | some w => if w.status = "running" then some w else getWorkerLoop poll (attempts + 1) remaining
    | none => getWorkerLoop poll (attempts + 1) remaining

/-- index.js `_getWorker`: 31 polls in total (attempts 0..30). -/
def getWorker (poll : Nat → Option Worker) : Option Worker :=
  getWorkerLoop poll 0 (GET_WORKER_MAX_ATTEMPTS + 1)

/-- index.js `getSessionUrl`: `worker && worker.browser_url`; undefined
(`none`) when the poll budget is exhausted. -/
def getSessionUrl (poll : Nat → Option Worker) : Option String :=
  match getWorker poll with
  | some w => some w.browser_url
  | none => none

/-- Failure modes of the admission path. `remoteApi` carries a transport
error rejected by a client callback; `typeError` is the TypeError raised by
reading `.length` of undefined; `noFreeMachines` is the
`Error("There are no free machines")` thrown by `waitForFreeMachines`. -/
inductive ConnectorError where
  | remoteApi (message : String)
  | typeError
  | noFreeMachines
deriving DecidableEq

/-- index.js `_getWorkers`: `new Promise(resolve => this.client.getWorkers((err, res) => resolve(res)))`.
The callback ignores `err` and resolves `res`, which is undefined when the
call failed: a transport error is swallowed into `none`. -/
def getWorkers (apiResult : Except String (List Worker)) : Option (List Worker) :=
  match apiResult with
  | .error _ => none
  | .ok workers => some workers

/-- index.js `_getMaxAvailableMachines`: rejects with `err` when
`getApiStatus` fails, otherwise resolves `status.sessions_limit`. -/
def getMaxAvailableMachines (apiResult : Except String ApiStatus) : Except String Int :=
  match apiResult with
  | .error e => .error e
  | .ok status => .ok status.sessions_limit

/-- index.js `_getFreeMachineCount`: `Promise.all` of the quota query and the
worker listing, then `maxMachines - workers.length`. A quota-query rejection
propagates (`remoteApi`); a swallowed listing failure leaves `workers`
undefined and `workers.length` raises a TypeError. -/
def getFreeMachineCount (apiResult : Except String ApiStatus)
    (workersApiResult : Except String (List Worker)) : Except ConnectorError Int :=
  match getMaxAvailableMachines apiResult with
  | .error e => .error (.remoteApi e)
  | .ok maxMachines =>
    match getWorkers workersApiResult with
    | none => .error .typeError
    | some workers => .ok (maxMachines - (workers.length : Int))

/-- index.js `waitForFreeMachines` loop. `freeCount i` is the result of the
i-th `_getFreeMachineCount()` call; `remaining` counts the iterations the
condition `attempts < maxAttemptCount` still allows; `waits` counts the
`wait(requestInterval)` sleeps performed so far. The loop returns as soon as
`freeMachineCount >= machineCount`; otherwise it logs, sleeps, increments
`attempts`; exhausting the loop throws "There are no free machines". -/
def waitForFreeMachinesLoop (freeCount : Nat → Except ConnectorError Int)
    (machineCount : Int) : Nat → Nat → Nat → Except ConnectorError Unit × Nat
  | _, waits, 0 => (.error .noFreeMachines, waits)
  | attempts, waits, remaining + 1 =>
    match freeCount attempts with
    | .error e => (.error e, waits)
    | .ok free =>
      if machineCount ≤ free then (.ok (), waits)
      else waitForFreeMachinesLoop freeCount machineCount (attempts + 1) (waits + 1) remaining

/-- index.js `waitForFreeMachines (machineCount, requestInterval, maxAttemptCount)`,
with the two remote queries of each check given by oracles per attempt
index. Returns the outcome and the number of sleeps performed. -/
def waitForFreeMachines (apiStatus : Nat → Except String ApiStatus)
    (workersApi : Nat → Except String (List Worker))
    (machineCount : Int) (maxAttemptCount : Nat) : Except ConnectorError Unit × Nat :=
  waitForFreeMachinesLoop (fun i => getFreeMachineCount (apiStatus i) (workersApi i))
    machineCount 0 0 maxAttemptCount

/-- index.js `stopBrowser`: rejects with `err` when `terminateWorker` fails,
otherwise resolves `data.time`. -/
def stopBrowser (terminateWorkerResult : Except String TerminateData) : Except String Int :=
  match terminateWorkerResult with
  | .error e => .error e
  | .ok data => .ok data.time

/-- The outcome of settling the `waitForUrlOpened` promise of one attempt:
`resolved` via the notification handler, or `rejected` with the value passed
to `reject`. -/
inductive AttemptSettle where
  | resolved
  | rejected (message : String)
deriving DecidableEq

/-- A promise settles at most once: a second settle is a no-op. -/
def settleOnce (s : Option AttemptSettle) (v : AttemptSettle) : Option AttemptSettle :=
  match s with
  | none => some v
  | some x => some x

/-- The observable state of one `_startBrowser` attempt after its
`waitForUrlOpened` executor has run (`setTimeout` scheduled, `hubHandler`
added under "browser-opened"). `workerVar` is the attempt's `worker`
variable, null until `worker = await this._getWorker(workerId)` completes;
`terminateCalls` counts calls to `this.client.terminateWorker`. -/
structure AttemptState where
  listenerRegistered : Bool
  timeoutArmed : Bool
  workerVar : Option String
  terminateCalls : Nat
  settled : Option AttemptSettle
deriving DecidableEq

/-- State right after `waitForUrlOpened` is constructed (index.js lines run
synchronously in the executor: schedule the timeout, add the listener). -/
def initAttempt : AttemptState :=
  { listenerRegistered := true
    timeoutArmed := true
    workerVar := none
    terminateCalls := 0
    settled := none }

/-- The asynchronous events that can act on one attempt:
- `inbound id url`: the remote browser reaches the Hub (`GET /id?url=url`),
  whose handler emits the "open" event carrying `id`;
- `workerAssigned wid`: `worker = await this._getWorker(workerId)` completes;
- `timeoutFires r`: the opening timeout elapses and its callback runs, with
  `r` the result the `terminateWorker` callback would deliver. -/
inductive AttemptEvent where
  | inbound (id url : String)
  | workerAssigned (workerId : String)
  | timeoutFires (terminateWorkerResult : Except String TerminateData)

/-- Whether an event is the opening timeout firing. -/
def isTimeoutFiring : AttemptEvent → Bool
  | .timeoutFires _ => true
  | _ => false

/-- One event acting on one attempt (correlation id `bid`).

`inbound`: the Hub emits under `hubEmitEventName` ("open"); the attempt's
`hubHandler` is registered under `openedListenEventName` ("browser-opened"),
so it runs only if those names coincide and the carried id equals `bid`; it
then removes itself, clears the timeout and resolves.

`timeoutFires`: if the timeout was not cleared, the callback removes the
listener, then evaluates `worker.id` — a TypeError when `worker` is still
null, which aborts the async callback as an unhandled rejection — then
`await this.stopBrowser(worker.id)`; only if that resolves does
`reject("Browser starting timeout expired")` run; if it rejects, the
rejection is unhandled and the attempt's promise stays pending. -/
def stepAttempt (bid : String) (s : AttemptState) : AttemptEvent → AttemptState
  | .inbound id _url =>
    if s.listenerRegistered && (hubEmitEventName == openedListenEventName) && (id == bid) then
      { s with listenerRegistered := false
               timeoutArmed := false
               settled := settleOnce s.settled .resolved }
    else s
  | .workerAssigned wid => { s with workerVar := some wid }
  | .timeoutFires terminateWorkerResult =>
    if s.timeoutArmed then
      let s1 := { s with timeoutArmed := false, listenerRegistered := false }
      match s1.workerVar with
      | none => s1
      | some _ =>
        let s2 := { s1 with terminateCalls := s1.terminateCalls + 1 }
        match stopBrowser terminateWorkerResult with
        | .ok _ =>
          { s2 with settled := settleOnce s2.settled (.rejected "Browser starting timeout expired") }
        | .error _ => s2
    else s

/-- Run a sequence of events against one attempt. -/
def runAttempt (bid : String) (s : AttemptState) (events : List AttemptEvent) : AttemptState :=
  events.foldl (stepAttempt bid) s

/-- The Hub's event emitter shared by all in-flight attempts: `listeners`
holds (event name, browserId captured by that attempt's `hubHandler`);
`resolvedIds` records which attempts' waiters have been resolved. -/
structure EmitterState where
  listeners : List (String × String)
  resolvedIds : List String

/-- One `hubHandler` closure (capturing `handlerBid`) invoked with a
notified id: if they match, it removes itself from the listener list and
resolves its attempt; otherwise it does nothing. -/
def runHubHandler (handlerBid notifiedId : String) (s : EmitterState) : EmitterState :=
  if notifiedId == handlerBid then
    { listeners := s.listeners.filter
        (fun l => !(l.1 == openedListenEventName && l.2 == handlerBid))
      resolvedIds := handlerBid :: s.resolvedIds }
  else s

/-- `EventEmitter.emit(eventName, notifiedId)`: snapshot the listeners
registered under `eventName` and invoke each in order. -/
def emitEvent (eventName notifiedId : String) (s : EmitterState) : EmitterState :=
  (s.listeners.filter (fun l => l.1 == eventName)).foldl
    (fun st l => runHubHandler l.2 notifiedId st) s

/-- The ordered primitive actions of one `_startBrowser` call. -/
inductive OpenAction where
  | setTimeoutStart
  | addOpenedListener (eventName browserId : String)
  | createWorkerRequest (browserId : String)
  | getWorkerPoll (workerId : String)
  | awaitUrlOpened
deriving DecidableEq

/-- index.js `_startBrowser`, linearized in execution order: the
`waitForUrlOpened` executor runs synchronously when the promise is
constructed (schedule the timeout, add the "browser-opened" listener), then
`const workerId = await createWorker()` issues the worker-creation request,
then `worker = await this._getWorker(workerId)` polls, then
`await waitForUrlOpened`. -/
def startBrowserAttemptTrace (bid wid : String) : List OpenAction :=
  [ .setTimeoutStart
  , .addOpenedListener openedListenEventName bid
  , .createWorkerRequest bid
  , .getWorkerPoll wid
  , .awaitUrlOpened ]

/-- index.js: `DEFAULT_BROWSER_OPENING_MAX_ATTEMPT = 3`. -/
def DEFAULT_BROWSER_OPENING_MAX_ATTEMPT : Nat := 3

/-- index.js `startBrowser` retry loop. `attemptResult i` is the settlement
of the i-th `this._startBrowser(...)` call (each such call issues exactly one
`createWorker` request); `remaining` counts the iterations the condition
`attempt < maxAttepts` still allows (the condition `!worker` is reflected by
returning as soon as an attempt succeeds); `lastError` is the `error`
variable. The second component counts the `_startBrowser` calls made. On
exhaustion with a captured error the wrapper throws
`Unable to start browser NAME due to: ERROR`; with no error it falls through
and returns the (null) worker. -/
def startBrowserLoop (attemptResult : Nat → Except String Worker) (name : String) :
    Nat → Nat → Option String → Nat → Except String (Option Worker) × Nat
  | _, calls, lastError, 0 =>
    match lastError with
    | some e => (.error ("Unable to start browser " ++ name ++ " due to: " ++ e), calls)
    | none => (.ok none, calls)
  | attempt, calls, _, remaining + 1 =>
    match attemptResult attempt with
    | .ok w => (.ok (some w), calls + 1)
    | .error e => startBrowserLoop attemptResult name (attempt + 1) (calls + 1) (some e) remaining

/-- index.js `startBrowser`: `maxAttepts = maxAttepts || DEFAULT_BROWSER_OPENING_MAX_ATTEMPT`
(a falsy 0 becomes 3), then the retry loop starting at attempt 0. -/
def startBrowser (attemptResult : Nat → Except String Worker) (name : String)
    (maxAttepts : Nat) : Except String (Option Worker) × Nat :=
  let m := if maxAttepts = 0 then DEFAULT_BROWSER_OPENING_MAX_ATTEMPT else maxAttepts
  startBrowserLoop attemptResult name 0 0 none m

theorem waitLoop_first_ok (freeCount : Nat → Except ConnectorError Int) (machineCount : Int)
    (a w r : Nat) (f : Int) (hr : 0 < r) (hf : freeCount a = .ok f) (hle : machineCount ≤ f) :
    waitForFreeMachinesLoop freeCount machineCount a w r = (.ok (), w) := by
  cases r with
  | zero => exact absurd hr (by simp)
  | succ r => simp [waitForFreeMachinesLoop, hf, hle]

theorem waitLoop_first_error (freeCount : Nat → Except ConnectorError Int) (machineCount : Int)
    (a w r : Nat) (e : ConnectorError) (hr : 0 < r) (hf : freeCount a = .error e) :
    waitForFreeMachinesLoop freeCount machineCount a w r = (.error e, w) := by
  cases r with
  | zero => exact absurd hr (by simp)
  | succ r => simp [waitForFreeMachinesLoop, hf]

theorem waitLoop_exhausted (freeCount : Nat → Except ConnectorError Int) (machineCount : Int) :
    ∀ (r a w : Nat),
      (∀ i, a ≤ i → i < a + r → ∃ f, freeCount i = .ok f ∧ f < machineCount) →
      waitForFreeMachinesLoop freeCount machineCount a w r = (.error .noFreeMachines, w + r) := by
  intro r
  induction r with
  | zero => intro a w _; simp [waitForFreeMachinesLoop]
  | succ r ih =>
    intro a w h
    obtain ⟨f, hf, hlt⟩ := h a (Nat.le_refl a) (by omega)
    have hnot : ¬ machineCount ≤ f := not_le.mpr hlt
    have := ih (a + 1) (w + 1) (fun i h1 h2 => h i (by omega) (by omega))
    simp only [waitForFreeMachinesLoop, hf, hnot, if_false]
    rw [this]
    simp only [Prod.mk.injEq]
    exact ⟨trivial, by omega⟩

/-- C4: `waitForFreeMachines` returns success with zero sleeps when the
first free-machine check yields at least the requested count, and fails with
the "There are no free machines" error after `maxAttemptCount` polls when
every check in the budget yields a count below the requested one. -/
theorem waitForFreeMachines_admission (apiStatus : Nat → Except String ApiStatus)
    (workersApi : Nat → Except String (List Worker)) (machineCount : Int) (maxAttemptCount : Nat) :
    (∀ f, 0 < maxAttemptCount →
      getFreeMachineCount (apiStatus 0) (workersApi 0) = .ok f → machineCount ≤ f →
      waitForFreeMachines apiStatus workersApi machineCount maxAttemptCount = (.ok (), 0)) ∧
    ((∀ i, i < maxAttemptCount → ∃ f,
        getFreeMachineCount (apiStatus i) (workersApi i) = .ok f ∧ f < machineCount) →
      waitForFreeMachines apiStatus workersApi machineCount maxAttemptCount =
        (.error .noFreeMachines, maxAttemptCount)) := by
  constructor
  · intro f hr hf hle
    exact waitLoop_first_ok _ machineCount 0 0 maxAttemptCount f hr hf hle
  · intro h
    have := waitLoop_exhausted
      (fun i => getFreeMachineCount (apiStatus i) (workersApi i)) machineCount
      maxAttemptCount 0 0 (fun i h1 h2 => h i (by omega))
    simpa [waitForFreeMachines] using this

theorem waitForFreeMachines_admission_witness :
    waitForFreeMachines (fun _ => .ok ⟨5⟩) (fun _ => .ok []) 2 3 = (.ok (), 0) ∧
    waitForFreeMachines (fun _ => .ok ⟨1⟩) (fun _ => .ok []) 2 3 =
      (.error .noFreeMachines, 3) := by
  constructor
  · exact (waitForFreeMachines_admission (fun _ => .ok ⟨5⟩) (fun _ => .ok []) 2 3).1 5
      (by decide) rfl (by decide)
  · exact (waitForFreeMachines_admission (fun _ => .ok ⟨1⟩) (fun _ => .ok []) 2 3).2
      (fun i _ => ⟨1, rfl, by decide⟩)

/-- C5 counterexample: with `requiredCount = 0`, the call does not always
succeed immediately. With `maxAttemptCount = 0` the loop body never runs and
the call throws "There are no free machines"; and when the first check sees
more active workers (3) than the quota (2), the free count is -1 < 0, so the
call sleeps instead of returning. -/
theorem waitForFreeMachines_zero_required_counterexample :
    waitForFreeMachines (fun _ => .ok ⟨5⟩) (fun _ => .ok []) 0 0 =
      (.error .noFreeMachines, 0) ∧
    waitForFreeMachines (fun _ => .ok ⟨2⟩)
      (fun _ => .ok [⟨"w1", "running", "u1"⟩, ⟨"w2", "running", "u2"⟩, ⟨"w3", "running", "u3"⟩])
      0 1 = (.error .noFreeMachines, 1) := by
  constructor
  · rfl
  · rfl

/-- C5 amended: a call with `requiredCount = 0` succeeds immediately (no
sleep) provided at least one poll is allowed (`maxAttemptCount > 0`) and the
first check succeeds with a non-negative free count (active workers not
exceeding the quota). -/
theorem waitForFreeMachines_zero_required_amended (apiStatus : Nat → Except String ApiStatus)
    (workersApi : Nat → Except String (List Worker)) (maxAttemptCount : Nat) (f : Int)
    (hr : 0 < maxAttemptCount)
    (hf : getFreeMachineCount (apiStatus 0) (workersApi 0) = .ok f) (hnn : 0 ≤ f) :
    waitForFreeMachines apiStatus workersApi 0 maxAttemptCount = (.ok (), 0) :=
  waitLoop_first_ok _ 0 0 0 maxAttemptCount f hr hf hnn

theorem waitForFreeMachines_zero_required_amended_witness :
    waitForFreeMachines (fun _ => .ok ⟨5⟩) (fun _ => .ok []) 0 4 = (.ok (), 0) :=
  waitForFreeMachines_zero_required_amended (fun _ => .ok ⟨5⟩) (fun _ => .ok []) 4 5
    (by decide) rfl (by decide)

/-- C6 counterexample: when the active-worker listing fails with a transport
error, `_getWorkers` swallows it (the callback resolves `res`, undefined on
error) and the check fails with the TypeError from `workers.length` instead
of surfacing the transport error. -/
theorem workers_transport_error_swallowed :
    waitForFreeMachines (fun _ => .ok ⟨5⟩) (fun _ => .error "ECONNRESET") 1 3 =
      (.error .typeError, 0) ∧
    ConnectorError.typeError ≠ ConnectorError.remoteApi "ECONNRESET" := by
  constructor
  · rfl
  · decide

/-- C6 amended: a quota-query failure during the first check propagates its
transport error as a fatal error for the whole `waitForFreeMachines` call,
immediately and with no internal retry (zero sleeps). A worker-listing
failure is swallowed by `_getWorkers` (which resolves undefined); the
subsequent `workers.length` access raises a TypeError that likewise
propagates immediately as a fatal error with no internal retry. -/
theorem query_failure_fatal_amended (apiStatus : Nat → Except String ApiStatus)
    (workersApi : Nat → Except String (List Worker)) (machineCount : Int) (maxAttemptCount : Nat) :
    (∀ e, 0 < maxAttemptCount → apiStatus 0 = .error e →
      waitForFreeMachines apiStatus workersApi machineCount maxAttemptCount =
        (.error (.remoteApi e), 0)) ∧
    (∀ q e, 0 < maxAttemptCount → apiStatus 0 = .ok q → workersApi 0 = .error e →
      waitForFreeMachines apiStatus workersApi machineCount maxAttemptCount =
        (.error .typeError, 0)) := by
  constructor
  · intro e hr h0
    exact waitLoop_first_error _ machineCount 0 0 maxAttemptCount (.remoteApi e) hr
      (by simp [getFreeMachineCount, getMaxAvailableMachines, h0])
  · intro q e hr h0 hw
    exact waitLoop_first_error _ machineCount 0 0 maxAttemptCount .typeError hr
      (by simp [getFreeMachineCount, getMaxAvailableMachines, getWorkers, h0, hw])

theorem query_failure_fatal_amended_witness :
    waitForFreeMachines (fun _ => .error "ETIMEDOUT") (fun _ => .ok []) 1 3 =
      (.error (.remoteApi "ETIMEDOUT"), 0) ∧
    waitForFreeMachines (fun _ => .ok ⟨5⟩) (fun _ => .error "ETIMEDOUT") 1 3 =
      (.error .typeError, 0) := by
  constructor
  · exact (query_failure_fatal_amended (fun _ => .error "ETIMEDOUT") (fun _ => .ok []) 1 3).1
      "ETIMEDOUT" (by decide) rfl
  · exact (query_failure_fatal_amended (fun _ => .ok ⟨5⟩) (fun _ => .error "ETIMEDOUT") 1 3).2
      ⟨5⟩ "ETIMEDOUT" (by decide) rfl rfl

theorem getWorkerLoop_none (poll : Nat → Option Worker) :
    ∀ (r a : Nat),
      (∀ i, a ≤ i → i < a + r → ∀ w, poll i = some w → w.status ≠ "running") →
      getWorkerLoop poll a r = none := by
  intro r
  induction r with
  | zero => intro a _; rfl
  | succ r ih =>
    intro a h
    have hrec := ih (a + 1) (fun i h1 h2 => h i (by omega) (by omega))
    cases hp : poll a with
    | none => simp [getWorkerLoop, hp, hrec]
    | some w =>
      have : w.status ≠ "running" := h a (Nat.le_refl a) (by omega) w hp
      simp [getWorkerLoop, hp, this, hrec]

/-- C10: when no poll within the 31-poll budget (attempts 0..30) ever
reports a worker in status "running", `_getWorker` falls off its loop and
`getSessionUrl` returns undefined (`none`) rather than raising an error. -/
theorem getSessionUrl_poll_exhausted_none (poll : Nat → Option Worker)
    (h : ∀ i, i ≤ GET_WORKER_MAX_ATTEMPTS → ∀ w, poll i = some w → w.status ≠ "running") :
    getSessionUrl poll = none := by
  have : getWorker poll = none := by
    apply getWorkerLoop_none poll (GET_WORKER_MAX_ATTEMPTS + 1) 0
    intro i h1 h2 w hw
    exact h i (by omega) w hw
  simp [getSessionUrl, this]

theorem getSessionUrl_poll_exhausted_none_witness :
    getSessionUrl (fun _ => none) = none :=
  getSessionUrl_poll_exhausted_none (fun _ => none) (by intro i _ w hw; cases hw)

/-- C1 (code defect): even when the inbound correlation callback carrying
the attempt's own correlation id reaches the Hub while the listener is
registered and the timeout is still pending, the waiter does not resolve.
The Hub emits the notification under the event name "open" while
`_startBrowser` registers its handler under "browser-opened", so the handler
never runs: the listener stays registered, the promise stays pending, and
the attempt can only end in the opening timeout. -/
theorem correlation_callback_lost :
    (runAttempt "b1" initAttempt [.inbound "b1" "http://example.org/test"]).settled = none ∧
    (runAttempt "b1" initAttempt [.inbound "b1" "http://example.org/test"]).listenerRegistered
      = true ∧
    handleHubRequest ⟨"GET", ["b1"], some "http://example.org/test"⟩ =
      (.redirect 302 (some "http://example.org/test"), [("open", "b1")]) ∧
    hubEmitEventName ≠ openedListenEventName :=
  ⟨rfl, rfl, rfl, by decide⟩

theorem runHubHandler_resolvedIds_mem (handlerBid notifiedId b : String) (s : EmitterState)
    (h : b ∈ (runHubHandler handlerBid notifiedId s).resolvedIds) :
    (b = handlerBid ∧ notifiedId = handlerBid) ∨ b ∈ s.resolvedIds := by
  unfold runHubHandler at h
  by_cases hc : notifiedId == handlerBid
  · rw [if_pos hc] at h
    simp only [List.mem_cons] at h
    rcases h with h1 | h2
    · exact Or.inl ⟨h1, eq_of_beq hc⟩
    · exact Or.inr h2
  · rw [if_neg hc] at h
    exact Or.inr h

theorem runHubHandler_resolved_subset (a b : String) (hne : a ≠ b) :
    ∀ (ls : List (String × String)) (s : EmitterState),
      b ∉ s.resolvedIds →
      b ∉ (ls.foldl (fun st l => runHubHandler l.2 a st) s).resolvedIds := by
  intro ls
  induction ls with
  | nil => intro s h; exact h
  | cons l tl ih =>
    intro s h
    have step : b ∉ (runHubHandler l.2 a s).resolvedIds := by
      intro hmem
      rcases runHubHandler_resolvedIds_mem l.2 a b s hmem with ⟨h1, h2⟩ | h2
      · exact hne (h2.trans h1.symm)
      · exact h h2
    exact ih (runHubHandler l.2 a s) step

/-- C7: correlation isolation. Dispatching a notification that carries id
`a` through the Hub's event emitter never resolves the waiter of a
different id `b`: every `hubHandler` guards on its own captured browser id,
so the only id an emission for `a` can add to the resolved set is `a`
itself. This holds for every event name, every listener registry and every
set of concurrently registered waiters. -/
theorem notification_isolation (s : EmitterState) (eventName a b : String)
    (hne : a ≠ b) (hb : b ∉ s.resolvedIds) :
    b ∉ (emitEvent eventName a s).resolvedIds := by
  unfold emitEvent
  exact runHubHandler_resolved_subset a b hne _ s hb

theorem notification_isolation_witness :
    "b" ∉ (emitEvent "browser-opened" "a"
      ⟨[("browser-opened", "a"), ("browser-opened", "b")], []⟩).resolvedIds :=
  notification_isolation ⟨[("browser-opened", "a"), ("browser-opened", "b")], []⟩
    "browser-opened" "a" "b" (by decide) (by simp)

/-- C8: within one `_startBrowser` attempt, the notification listener for
the attempt's correlation id is added (position 1 of the execution trace,
inside the synchronously-run promise executor) strictly before the
worker-creation request is issued (position 2). -/
theorem listener_registered_before_worker_created (bid wid : String) :
    ∃ (i j : Nat), i < j ∧
      (startBrowserAttemptTrace bid wid)[i]? =
        some (OpenAction.addOpenedListener openedListenEventName bid) ∧
      (startBrowserAttemptTrace bid wid)[j]? = some (OpenAction.createWorkerRequest bid) :=
  ⟨1, 2, by omega, rfl, rfl⟩

/-- C9: a GET request to the Hub whose path is a single segment (the
correlation id) and which carries a `url` query parameter is answered with a
302 redirect to that url, and as a side effect the Hub emits exactly one
notification, named "open", carrying the correlation id; every other
method/path combination matches no route. -/
theorem hub_route_redirect_and_notify :
    (∀ id u, handleHubRequest ⟨"GET", [id], some u⟩ =
      (.redirect 302 (some u), [(hubEmitEventName, id)])) ∧
    (∀ req : HubRequest, req.method ≠ "GET" ∨ req.pathSegments.length ≠ 1 →
      handleHubRequest req = (.notFound, [])) := by
  constructor
  · intro id u
    rfl
  · intro req h
    obtain ⟨m, p, q⟩ := req
    by_cases hm : m = "GET"
    · subst hm
      have hl : p.length ≠ 1 := by
        rcases h with h | h
        · exact absurd rfl h
        · exact h
      cases p with
      | nil => rfl
      | cons x tl =>
        cases tl with
        | nil => simp at hl
        | cons y tl2 => rfl
    · simp only [handleHubRequest]
      rw [if_neg hm]

theorem hub_route_redirect_and_notify_witness :
    handleHubRequest ⟨"GET", ["abc123"], some "http://target"⟩ =
      (.redirect 302 (some "http://target"), [("open", "abc123")]) ∧
    handleHubRequest ⟨"POST", ["abc123"], none⟩ = (.notFound, []) :=
  ⟨hub_route_redirect_and_notify.1 "abc123" "http://target",
   hub_route_redirect_and_notify.2 ⟨"POST", ["abc123"], none⟩ (Or.inl (by decide))⟩

theorem names_differ : (hubEmitEventName == openedListenEventName) = false := rfl

theorem runAttempt_cons (bid : String) (s : AttemptState) (e : AttemptEvent)
    (tl : List AttemptEvent) :
    runAttempt bid s (e :: tl) = runAttempt bid (stepAttempt bid s e) tl := rfl

theorem stepAttempt_inbound (bid id url : String) (s : AttemptState) :
    stepAttempt bid s (.inbound id url) = s := by
  simp [stepAttempt, names_differ]

theorem runAttempt_no_timeout_fields (bid : String) :
    ∀ (pre : List AttemptEvent) (s : AttemptState),
      (∀ e ∈ pre, isTimeoutFiring e = false) →
      (runAttempt bid s pre).listenerRegistered = s.listenerRegistered ∧
      (runAttempt bid s pre).timeoutArmed = s.timeoutArmed ∧
      (runAttempt bid s pre).settled = s.settled ∧
      (runAttempt bid s pre).terminateCalls = s.terminateCalls := by
  intro pre
  induction pre with
  | nil => intro s _; exact ⟨rfl, rfl, rfl, rfl⟩
  | cons e tl ih =>
    intro s h
    have he : isTimeoutFiring e = false := h e (List.mem_cons_self e tl)
    have htl : ∀ x ∈ tl, isTimeoutFiring x = false :=
      fun x hx => h x (List.mem_cons_of_mem e hx)
    rw [runAttempt_cons]
    cases e with
    | inbound id url =>
      rw [stepAttempt_inbound]
      exact ih s htl
    | workerAssigned w =>
      have := ih { s with workerVar := some w } htl
      simpa [stepAttempt] using this
    | timeoutFires r => simp [isTimeoutFiring] at he

theorem runAttempt_frozen (bid : String) :
    ∀ (post : List AttemptEvent) (s : AttemptState),
      s.listenerRegistered = false → s.timeoutArmed = false →
      (runAttempt bid s post).settled = s.settled ∧
      (runAttempt bid s post).terminateCalls = s.terminateCalls := by
  intro post
  induction post with
  | nil => intro s _ _; exact ⟨rfl, rfl⟩
  | cons e tl ih =>
    intro s hlr hta
    rw [runAttempt_cons]
    cases e with
    | inbound id url =>
      rw [stepAttempt_inbound]
      exact ih s hlr hta
    | workerAssigned w =>
      have := ih { s with workerVar := some w } (by simpa using hlr) (by simpa using hta)
      simpa [stepAttempt] using this
    | timeoutFires r =>
      have hstep : stepAttempt bid s (.timeoutFires r) = s := by
        simp [stepAttempt, hta]
      rw [hstep]
      exact ih s hlr hta

theorem stepAttempt_timeout_ok (bid wid : String) (t : Int) (s : AttemptState)
    (ha : s.timeoutArmed = true) (hw : s.workerVar = some wid) (hs : s.settled = none) :
    stepAttempt bid s (.timeoutFires (.ok ⟨t⟩)) =
      { s with timeoutArmed := false, listenerRegistered := false,
               terminateCalls := s.terminateCalls + 1,
               settled := some (.rejected "Browser starting timeout expired") } := by
  obtain ⟨l, a, wv, c, st⟩ := s
  simp only at ha hw hs
  subst ha
  subst hw
  subst hs
  simp [stepAttempt, stopBrowser, settleOnce]

/-- C2 counterexample: the opening timeout fires with no callback having
arrived (the worker handle is assigned), but `terminateWorker` fails; the
timeout callback's `await this.stopBrowser(worker.id)` rejects, so
`reject("Browser starting timeout expired")` never runs: terminateWorker is
called (once) yet the attempt does NOT fail — its promise stays pending
forever, contradicting the claim that the attempt fails with the
opening-timeout error and is never left unresolved. -/
theorem timeout_terminate_failure_leaves_attempt_pending :
    (runAttempt "b1" initAttempt
      [AttemptEvent.workerAssigned "w1",
       AttemptEvent.timeoutFires (Except.error "terminate failed")]).settled = none ∧
    (runAttempt "b1" initAttempt
      [AttemptEvent.workerAssigned "w1",
       AttemptEvent.timeoutFires (Except.error "terminate failed")]).terminateCalls = 1 := by
  constructor
  · rfl
  · rfl

/-- C2 amended: if no opening timeout has fired during the prefix of the
attempt (no callback can resolve the waiter: the Hub emits "open" while the
listener is registered under "browser-opened"), the worker variable has been
assigned, and the `terminateWorker` call issued by the timeout callback
succeeds, then when the opening timeout fires the attempt rejects with
"Browser starting timeout expired" and `terminateWorker` has been called
exactly once — and no later event (further inbound callbacks or stray timer
firings) changes the settlement or adds a terminate call. If instead
`terminateWorker` fails, it is still called only once but the attempt's
promise is never settled. -/
theorem timeout_cleanup_amended (bid wid : String) (t : Int)
    (pre post : List AttemptEvent)
    (hpre : ∀ e ∈ pre, isTimeoutFiring e = false)
    (hw : (runAttempt bid initAttempt pre).workerVar = some wid) :
    (runAttempt bid initAttempt
        (pre ++ AttemptEvent.timeoutFires (Except.ok ⟨t⟩) :: post)).settled =
      some (AttemptSettle.rejected "Browser starting timeout expired") ∧
    (runAttempt bid initAttempt
        (pre ++ AttemptEvent.timeoutFires (Except.ok ⟨t⟩) :: post)).terminateCalls = 1 := by
  obtain ⟨hl, ha, hs, hc⟩ := runAttempt_no_timeout_fields bid pre initAttempt hpre
  have ha2 : (runAttempt bid initAttempt pre).timeoutArmed = true := by
    rw [ha]; rfl
  have hs2 : (runAttempt bid initAttempt pre).settled = none := by
    rw [hs]; rfl
  have hsplit : runAttempt bid initAttempt (pre ++ AttemptEvent.timeoutFires (Except.ok ⟨t⟩) :: post)
      = runAttempt bid (stepAttempt bid (runAttempt bid initAttempt pre)
          (AttemptEvent.timeoutFires (Except.ok ⟨t⟩))) post := by
    simp [runAttempt, List.foldl_append]
  rw [hsplit, stepAttempt_timeout_ok bid wid t _ ha2 hw hs2]
  obtain ⟨hfs, hfc⟩ := runAttempt_frozen bid post
    { runAttempt bid initAttempt pre with
        timeoutArmed := false, listenerRegistered := false,
        terminateCalls := (runAttempt bid initAttempt pre).terminateCalls + 1,
        settled := some (AttemptSettle.rejected "Browser starting timeout expired") }
    (by simp) (by simp)
  refine ⟨by rw [hfs], ?_⟩
  rw [hfc]
  show (runAttempt bid initAttempt pre).terminateCalls + 1 = 1
  rw [hc]
  rfl

theorem timeout_cleanup_amended_witness :
    (runAttempt "b1" initAttempt
      ([AttemptEvent.workerAssigned "w1"] ++
        AttemptEvent.timeoutFires (Except.ok ⟨0⟩) :: [])).settled =
      some (AttemptSettle.rejected "Browser starting timeout expired") ∧
    (runAttempt "b1" initAttempt
      ([AttemptEvent.workerAssigned "w1"] ++
        AttemptEvent.timeoutFires (Except.ok ⟨0⟩) :: [])).terminateCalls = 1 :=
  timeout_cleanup_amended "b1" "w1" 0 [AttemptEvent.workerAssigned "w1"] []
    (by intro e he; simp at he; subst he; rfl) rfl

theorem startLoop_spec (attemptResult : Nat → Except String Worker) (name : String) :
    ∀ (remaining attempt calls : Nat) (lastError : Option String),
      (startBrowserLoop attemptResult name attempt calls lastError remaining).2 ≤
        calls + remaining ∧
      (∀ w, (startBrowserLoop attemptResult name attempt calls lastError remaining).1 =
          .ok (some w) →
        ∃ i, attempt ≤ i ∧ i < attempt + remaining ∧ attemptResult i = .ok w) := by
  intro remaining
  induction remaining with
  | zero =>
    intro attempt calls lastError
    constructor
    · cases lastError <;> simp [startBrowserLoop]
    · intro w hw
      cases lastError <;> simp [startBrowserLoop] at hw
  | succ r ih =>
    intro attempt calls lastError
    cases har : attemptResult attempt with
    | ok w0 =>
      constructor
      · have hcalls : (startBrowserLoop attemptResult name attempt calls lastError (r + 1)).2 =
            calls + 1 := by
          simp [startBrowserLoop, har]
        omega
      · intro w hw
        simp [startBrowserLoop, har] at hw
        exact ⟨attempt, Nat.le_refl _, by omega, by rw [har, hw]⟩
    | error e =>
      have hrec := ih (attempt + 1) (calls + 1) (some e)
      have hred : startBrowserLoop attemptResult name attempt calls lastError (r + 1) =
          startBrowserLoop attemptResult name (attempt + 1) (calls + 1) (some e) r := by
        simp [startBrowserLoop, har]
      constructor
      · rw [hred]
        have := hrec.1
        omega
      · intro w hw
        rw [hred] at hw
        obtain ⟨i, h1, h2, h3⟩ := hrec.2 w hw
        exact ⟨i, by omega, by omega, h3⟩

/-- C3: `startBrowser` with `maxAttepts = N > 0` makes at most N calls to
`_startBrowser` (hence at most N `createWorker` requests: each attempt
issues exactly one), and resolves with a worker handle only when some
attempt within the budget itself resolved with that handle — which, in
`_startBrowser`, happens only after `await waitForUrlOpened` succeeds, i.e.
after the attempt reached confirmation via the correlation notification. -/
theorem startBrowser_retry_bound (attemptResult : Nat → Except String Worker)
    (name : String) (N : Nat) (h : 0 < N) :
    (startBrowser attemptResult name N).2 ≤ N ∧
    (∀ w, (startBrowser attemptResult name N).1 = .ok (some w) →
      ∃ i, i < N ∧ attemptResult i = .ok w) := by
  have hunfold : startBrowser attemptResult name N =
      startBrowserLoop attemptResult name 0 0 none N := by
    simp only [startBrowser]
    rw [if_neg (by omega : ¬ N = 0)]
  have hspec := startLoop_spec attemptResult name N 0 0 none
  rw [hunfold]
  constructor
  · have := hspec.1
    omega
  · intro w hw
    obtain ⟨i, _, h2, h3⟩ := hspec.2 w hw
    exact ⟨i, by omega, h3⟩

theorem startBrowser_retry_bound_witness :
    (startBrowser (fun _ => Except.error "boom") "chrome" 2).2 ≤ 2 :=
  (startBrowser_retry_bound (fun _ => Except.error "boom") "chrome" 2 (by decide)).1
